import Mathlib

/-
Verification of the run orchestration and completion-tracking subsystem of the
AI-Calling-Agent repository: the Express server embedded in src/src/App.jsx
(readCounter, writeCounter, POST /api/start-calls with its child close handler,
POST /api/n8n/callback, GET /api/counter).

The persisted artifact data/counter.json and all request/response bodies are
modelled as JSON values.  Numbers are modelled as integers: every number this
subsystem stores or compares is an integer count.  File contents are modelled
at the parse level: an Option Json whose none case covers a missing, unreadable
or unparseable file, exactly the cases in which JSON.parse or readFile throws.
-/

set_option autoImplicit false

namespace AICallingAgent

/-- JSON values as produced by JSON.parse and consumed by res.json. -/
inductive Json where
  | null
  | bool (b : Bool)
  | num (n : Int)
  | str (s : String)
  | arr (elems : List Json)
  | obj (fields : List (String × Json))

/-- First-match lookup in an object field list, as JS property access on the
keys this program uses. -/
def lookupField : List (String × Json) → String → Option Json
  | [], _ => none
  | (k, v) :: rest, key => if k = key then some v else lookupField rest key

/-- JS property access body.key: some value on an object that has the key,
none (undefined) otherwise.  The keys this program accesses are never array
or string indices, so non-objects always give undefined. -/
def getField : Json → String → Option Json
  | Json.obj fs, key => lookupField fs key
  | _, _ => none

/-- JS truthiness of a value, as tested by Boolean(x) and by x || y. -/
def truthy : Json → Bool
  | Json.null => false
  | Json.bool b => b
  | Json.num n => n != 0
  | Json.str s => s != ""
  | Json.arr _ => true
  | Json.obj _ => true

/-- JS truthiness of a possibly-undefined value: undefined is falsy. -/
def truthyOpt : Option Json → Bool
  | none => false
  | some j => truthy j

/-- JS strict equality x === s against a string literal: true exactly when x
is a string equal to s. -/
def strictEqStr (v : Option Json) (s : String) : Bool :=
  match v with
  | some (Json.str t) => t == s
  | _ => false

mutual
/-- JS ToString coercion of a value, as applied by the + operator to a
non-number operand. -/
def jsToString : Json → String
  | Json.null => "null"
  | Json.bool b => cond b "true" "false"
  | Json.num n => toString n
  | Json.str s => s
  | Json.obj _ => "[object Object]"
  | Json.arr xs => String.intercalate "," (jsJoinParts xs)

/-- Elements of an array as stringified by Array.prototype.join: a null
element becomes the empty string. -/
def jsJoinParts : List Json → List String
  | [] => []
  | Json.null :: rest => "" :: jsJoinParts rest
  | j :: rest => jsToString j :: jsJoinParts rest
end

/-- JS evaluation of x || 0, as in the callback handler expression
counter.success || 0. -/
def jsOrZero (v : Option Json) : Json :=
  if truthyOpt v then v.getD Json.null else Json.num 0

/-- JS evaluation of x + 1: numeric addition on numbers, booleans and null;
string concatenation after ToString coercion otherwise. -/
def jsPlusOne : Json → Json
  | Json.num n => Json.num (n + 1)
  | Json.null => Json.num 1
  | Json.bool b => Json.num (if b then 2 else 1)
  | Json.str s => Json.str (s ++ "1")
  | Json.arr xs => Json.str (jsToString (Json.arr xs) ++ "1")
  | Json.obj fs => Json.str (jsToString (Json.obj fs) ++ "1")

/-- Enumerable own properties contributed by object spread: an object spreads
its fields, arrays and strings spread their index properties, other primitives
contribute nothing. -/
def spreadFields : Json → List (String × Json)
  | Json.obj fs => fs
  | Json.arr xs => xs.enum.map fun p => (toString p.1, p.2)
  | Json.str s => s.data.enum.map fun p => (toString p.1, Json.str (String.mk [p.2]))
  | _ => []

/-- Setting one field in an object field list, as a spread-with-override does:
replace the value in place when the key is present, append otherwise. -/
def upsert : List (String × Json) → String → Json → List (String × Json)
  | [], key, v => [(key, v)]
  | (k, w) :: rest, key, v =>
    if k = key then (key, v) :: rest else (k, w) :: upsert rest key v

/-- An HTTP response: status code and JSON body. -/
structure HttpResp where
  status : Nat
  body : Json

/-- The zero-valued default state returned by readCounter when
data/counter.json is missing or unparseable. -/
def defaultCounter : Json :=
  Json.obj [("total", Json.num 0), ("success", Json.num 0),
            ("lastRun", Json.null), ("lastUpdate", Json.null)]

/-- readCounter from src/src/App.jsx: the argument is the parse result of
data/counter.json (none when reading or parsing throws).  Returns the parsed
value, or the zero-valued defaults when the try block throws.  The second
component is the console output of the function: neither branch logs. -/
def readCounter : Option Json → Json × List String
  | some j => (j, [])
  | none => (defaultCounter, [])

/-- The counter state written by POST /api/start-calls before spawning
db_fetch.js: total 0, success 0, lastRun and lastUpdate both the start time. -/
def resetCounter (startTime : String) : Json :=
  Json.obj [("total", Json.num 0), ("success", Json.num 0),
            ("lastRun", Json.str startTime), ("lastUpdate", Json.str startTime)]

/-- POST /api/start-calls handler: resets the counter, spawns the job and
responds started immediately, before the job runs.  Returns the HTTP response
and the stored counter state after the handler. -/
def startCalls (now : String) (pid : Int) : HttpResp × Option Json :=
  (⟨200, Json.obj [("started", Json.bool true),
                   ("message", Json.str "Fetch + webhook process started"),
                   ("pid", Json.num pid)]⟩,
   some (resetCounter now))

/-- The total computed by the child close handler: the length of the
data/clients.json artifact when it parses to an array, 0 otherwise (missing,
unreadable, unparseable, or parsed to a non-array). -/
def closeTotal : Option Json → Int
  | some (Json.arr xs) => (xs.length : Int)
  | _ => 0

/-- The child close handler of POST /api/start-calls: reads the current
counter and writes it back with total and lastUpdate replaced, via the spread
expression over the freshly read state. -/
def onJobClose (artifact : Option Json) (stored : Option Json) (now : String) :
    Option Json :=
  some (Json.obj (upsert (upsert (spreadFields (readCounter stored).1)
    "total" (Json.num (closeTotal artifact))) "lastUpdate" (Json.str now)))

/-- req.body || \x7b\x7d in the callback handler: the parsed body when truthy,
the empty object otherwise. -/
def normBody (reqBody : Json) : Json :=
  if truthy reqBody then reqBody else Json.obj []

/-- The success flag computed by the callback handler:
Boolean(body.success) or body.status === ok or body.flag === success or
body.result === success. -/
def callbackAccepts (body : Json) : Bool :=
  truthyOpt (getField body "success") || strictEqStr (getField body "status") "ok"
    || strictEqStr (getField body "flag") "success"
    || strictEqStr (getField body "result") "success"

/-- The counter update performed by an accepted callback: spread the read
counter, set success to (counter.success || 0) + 1 and lastUpdate to now. -/
def cbUpdate (counter : Json) (now : String) : Json :=
  Json.obj (upsert (upsert (spreadFields counter)
    "success" (jsPlusOne (jsOrZero (getField counter "success"))))
    "lastUpdate" (Json.str now))

/-- POST /api/n8n/callback handler: reject with 400 when no success indicator
is found, otherwise read the counter, increment, write and respond 200 with
the updated counter.  Returns the HTTP response and the stored counter state
after the handler. -/
def onCallback (reqBody : Json) (stored : Option Json) (now : String) :
    HttpResp × Option Json :=
  let body := normBody reqBody
  if callbackAccepts body then
    let updated := cbUpdate (readCounter stored).1 now
    (⟨200, Json.obj [("ok", Json.bool true), ("counter", updated)]⟩, some updated)
  else
    (⟨400, Json.obj [("ok", Json.bool false),
                     ("message", Json.str "Expected success flag in payload")]⟩,
     stored)

/-- GET /api/counter handler: reads the counter and responds with it;
the stored state is returned unchanged. -/
def getCounter (stored : Option Json) : HttpResp × Option Json :=
  (⟨200, (readCounter stored).1⟩, stored)

/-- The success field of the persisted state as readCounter would deliver it. -/
def successOf (stored : Option Json) : Option Json :=
  getField (readCounter stored).1 "success"

/-- The four documented success indicators of the spec, read literally: a
success field equal to boolean true, status equal to ok, flag equal to
success, or result equal to success.  This follows the spec wording and is
used only to compare the documented acceptance rule with the implemented
one. -/
def specIndicatorPresent (body : Json) : Bool :=
  (match getField body "success" with
   | some (Json.bool true) => true
   | _ => false)
    || strictEqStr (getField body "status") "ok"
    || strictEqStr (getField body "flag") "success"
    || strictEqStr (getField body "result") "success"

/-- One post-trigger operation of a run: an inbound callback or the job close
handler firing. -/
inductive Op where
  | callback (reqBody : Json) (now : String)
  | jobClose (artifact : Option Json) (now : String)

/-- Effect of one operation on the stored counter state. -/
def applyOp (stored : Option Json) : Op → Option Json
  | Op.callback b now => (onCallback b stored now).2
  | Op.jobClose a now => onJobClose a stored now

/-- Effect of a sequence of operations on the stored counter state. -/
def runOps (stored : Option Json) (ops : List Op) : Option Json :=
  ops.foldl applyOp stored

/-- One scheduling event of a concurrent callback handler: its read of the
counter or its write of the updated counter — the two awaited steps between
which the event loop may schedule another handler. -/
inductive CbEv where
  | readEv (i : Nat)
  | writeEv (i : Nat)

/-- Shared store plus, per handler, the counter value its read captured. -/
structure SchedSt where
  store : Option Json
  captured : List (Option Json)

/-- Execute one scheduling event: a read captures the current store for
handler i; a write persists that handler's increment computed from its
captured read (a no-op for a handler that has not read yet). -/
def stepEv (times : Nat → String) (s : SchedSt) : CbEv → SchedSt
  | CbEv.readEv i => ⟨s.store, s.captured.set i (some (readCounter s.store).1)⟩
  | CbEv.writeEv i =>
    match s.captured.getD i none with
    | some c => ⟨some (cbUpdate c (times i)), s.captured⟩
    | none => s

/-- Execute a schedule of events over the shared store. -/
def runSched (times : Nat → String) (s : SchedSt) (evs : List CbEv) : SchedSt :=
  evs.foldl (stepEv times) s

theorem lookupField_upsert_self : ∀ (fs : List (String × Json)) (key : String) (v : Json),
    lookupField (upsert fs key v) key = some v
  | [], _, _ => by simp [upsert, lookupField]
  | (k, w) :: rest, key, v => by
    by_cases h : k = key
    · simp [upsert, h, lookupField]
    · simp [upsert, h, lookupField, lookupField_upsert_self rest key v]

theorem lookupField_upsert_ne :
    ∀ (fs : List (String × Json)) (key : String) (v : Json) (k2 : String),
      k2 ≠ key → lookupField (upsert fs key v) k2 = lookupField fs k2
  | [], key, v, k2, h => by
    simp [upsert, lookupField, Ne.symm h]
  | (k, w) :: rest, key, v, k2, h => by
    by_cases hk : k = key
    · subst hk
      simp [upsert, lookupField, Ne.symm h]
    · simp [upsert, hk, lookupField, lookupField_upsert_ne rest key v k2 h]

theorem exists_obj_of_getField {j : Json} {key : String} {v : Json}
    (h : getField j key = some v) : ∃ fs, j = Json.obj fs := by
  cases j <;> first | exact ⟨_, rfl⟩ | simp [getField] at h

theorem jsPlusOne_jsOrZero_num (n : Int) :
    jsPlusOne (jsOrZero (some (Json.num n))) = Json.num (n + 1) := by
  by_cases h : n = 0
  · subst h; rfl
  · simp [jsOrZero, truthyOpt, truthy, jsPlusOne, h]

theorem getField_cbUpdate_success (c : Json) (now : String) :
    getField (cbUpdate c now) "success" =
      some (jsPlusOne (jsOrZero (getField c "success"))) := by
  show lookupField _ "success" = _
  rw [lookupField_upsert_ne _ _ _ _ (by decide)]
  exact lookupField_upsert_self _ _ _

theorem getField_cbUpdate_lastUpdate (c : Json) (now : String) :
    getField (cbUpdate c now) "lastUpdate" = some (Json.str now) := by
  show lookupField _ "lastUpdate" = _
  exact lookupField_upsert_self _ _ _

theorem getField_cbUpdate_other (c : Json) (now : String) (k : String)
    (h1 : k ≠ "success") (h2 : k ≠ "lastUpdate") :
    getField (cbUpdate c now) k = lookupField (spreadFields c) k := by
  show lookupField _ k = _
  rw [lookupField_upsert_ne _ _ _ _ h2, lookupField_upsert_ne _ _ _ _ h1]

theorem onCallback_accept (reqBody : Json) (stored : Option Json) (now : String)
    (h : callbackAccepts (normBody reqBody) = true) :
    onCallback reqBody stored now =
      (⟨200, Json.obj [("ok", Json.bool true),
                       ("counter", cbUpdate (readCounter stored).1 now)]⟩,
       some (cbUpdate (readCounter stored).1 now)) := by
  simp [onCallback, h]

theorem onCallback_reject (reqBody : Json) (stored : Option Json) (now : String)
    (h : callbackAccepts (normBody reqBody) = false) :
    onCallback reqBody stored now =
      (⟨400, Json.obj [("ok", Json.bool false),
                       ("message", Json.str "Expected success flag in payload")]⟩,
       stored) := by
  simp [onCallback, h]

theorem onJobClose_fields (artifact stored : Option Json) (now : String)
    (fs : List (String × Json)) (hobj : (readCounter stored).1 = Json.obj fs) :
    ∃ r, onJobClose artifact stored now = some r ∧
      getField r "total" = some (Json.num (closeTotal artifact)) ∧
      getField r "lastUpdate" = some (Json.str now) ∧
      ∀ k, k ≠ "total" → k ≠ "lastUpdate" → getField r k = lookupField fs k := by
  refine ⟨_, rfl, ?_, ?_, ?_⟩
  · show lookupField _ "total" = _
    rw [hobj]
    show lookupField (upsert (upsert fs "total" _) "lastUpdate" _) "total" = _
    rw [lookupField_upsert_ne _ _ _ _ (by decide)]
    exact lookupField_upsert_self _ _ _
  · show lookupField _ "lastUpdate" = _
    exact lookupField_upsert_self _ _ _
  · intro k h1 h2
    show lookupField _ k = _
    rw [hobj]
    show lookupField (upsert (upsert fs "total" _) "lastUpdate" _) k = _
    rw [lookupField_upsert_ne _ _ _ _ h2, lookupField_upsert_ne _ _ _ _ h1]

/-- C4: POST /api/start-calls immediately persists the reset state — total 0,
success 0, lastRun and lastUpdate both set to the same start time — and
responds 200 with started true and the pid of the spawned job, independently
of the job; a GET /api/counter served before any later write returns exactly
that reset state. -/
theorem startCalls_resets_state (now : String) (pid : Int) :
    (startCalls now pid).2 = some (resetCounter now) ∧
    (startCalls now pid).1.status = 200 ∧
    getField (startCalls now pid).1.body "started" = some (Json.bool true) ∧
    getField (startCalls now pid).1.body "pid" = some (Json.num pid) ∧
    getField (resetCounter now) "total" = some (Json.num 0) ∧
    getField (resetCounter now) "success" = some (Json.num 0) ∧
    getField (resetCounter now) "lastRun" = some (Json.str now) ∧
    getField (resetCounter now) "lastUpdate" = some (Json.str now) ∧
    (getCounter (some (resetCounter now))).1.body = resetCounter now :=
  ⟨rfl, rfl, rfl, rfl, rfl, rfl, rfl, rfl, rfl⟩

/-- C7: GET /api/counter is read-only and side-effect free — the stored state
after the handler is the state before it — always responds 200 with exactly
the snapshot readCounter delivers, and delivers the zero-valued defaults when
no state was ever persisted. -/
theorem getCounter_readonly (stored : Option Json) :
    (getCounter stored).2 = stored ∧
    (getCounter stored).1.status = 200 ∧
    (getCounter stored).1.body = (readCounter stored).1 ∧
    (getCounter none).1.body = defaultCounter ∧
    (∀ j : Json, (getCounter (some j)).1.body = j) :=
  ⟨rfl, rfl, rfl, rfl, fun _ => rfl⟩

/-- C6 counterexample: on missing or unparseable persisted data readCounter
does return the zero-valued defaults, but its console output is empty — the
anomaly is not logged, contrary to the claim. -/
theorem readCounter_silent_cex :
    (readCounter none).1 = defaultCounter ∧ (readCounter none).2 = [] :=
  ⟨rfl, rfl⟩

/-- C6 amended: readCounter never fails its caller — when the persisted
artifact is absent or unparseable it returns the zero-valued default state,
silently (no log is emitted); when the artifact parses it returns the parsed
value unchanged, again without logging. -/
theorem readCounter_never_fails :
    readCounter none =
      (Json.obj [("total", Json.num 0), ("success", Json.num 0),
                 ("lastRun", Json.null), ("lastUpdate", Json.null)], []) ∧
    (∀ j : Json, readCounter (some j) = (j, [])) :=
  ⟨rfl, fun _ => rfl⟩

/-- C5 counterexample: with a persisted total of 5 and a missing or unreadable
artifact, the close handler writes total 0 — it does not leave total at the
prior persisted value 5. -/
theorem jobClose_crash_cex :
    getField (Json.obj [("total", Json.num 5), ("success", Json.num 2),
      ("lastRun", Json.str "t0"), ("lastUpdate", Json.str "t0")]) "total" =
      some (Json.num 5) ∧
    onJobClose none
      (some (Json.obj [("total", Json.num 5), ("success", Json.num 2),
        ("lastRun", Json.str "t0"), ("lastUpdate", Json.str "t0")])) "t1" =
      some (Json.obj [("total", Json.num 0), ("success", Json.num 2),
        ("lastRun", Json.str "t0"), ("lastUpdate", Json.str "t1")]) :=
  ⟨rfl, rfl⟩

/-- C5 amended: when the artifact is missing or unreadable the close handler
still completes normally (non-fatal) and writes the state back with total set
to 0 — the value a crashed run was reset to, not an arbitrary prior value —
with lastUpdate set to now and every other field of the state it read, in
particular success and lastRun, preserved. -/
theorem jobClose_crash_writes_zero (stored : Option Json) (now : String)
    (fs : List (String × Json)) (hobj : (readCounter stored).1 = Json.obj fs) :
    ∃ r, onJobClose none stored now = some r ∧
      getField r "total" = some (Json.num 0) ∧
      getField r "lastUpdate" = some (Json.str now) ∧
      ∀ k, k ≠ "total" → k ≠ "lastUpdate" → getField r k = lookupField fs k :=
  onJobClose_fields none stored now fs hobj

/-- Witness for C5 amended at a concrete prior state with success 2. -/
theorem jobClose_crash_writes_zero_witness :
    getField ((readCounter (onJobClose none
      (some (Json.obj [("total", Json.num 5), ("success", Json.num 2),
        ("lastRun", Json.str "t0"), ("lastUpdate", Json.str "t0")])) "t1")).1)
      "success" = some (Json.num 2) := by
  obtain ⟨r, hr, _, _, hf⟩ := jobClose_crash_writes_zero
    (some (Json.obj [("total", Json.num 5), ("success", Json.num 2),
      ("lastRun", Json.str "t0"), ("lastUpdate", Json.str "t0")])) "t1"
    [("total", Json.num 5), ("success", Json.num 2),
      ("lastRun", Json.str "t0"), ("lastUpdate", Json.str "t0")] rfl
  rw [hr]
  show getField r "success" = some (Json.num 2)
  rw [hf "success" (by decide) (by decide)]
  rfl

/-- C3: when the job terminates and the artifact parses to an array of length
K, the close handler read-modify-writes the current persisted state, setting
total to K and lastUpdate to now while leaving every other field of the state
it read — in particular success and lastRun — unchanged. -/
theorem jobClose_sets_total (xs : List Json) (stored : Option Json)
    (now : String) (fs : List (String × Json))
    (hobj : (readCounter stored).1 = Json.obj fs) :
    ∃ r, onJobClose (some (Json.arr xs)) stored now = some r ∧
      getField r "total" = some (Json.num (xs.length : Int)) ∧
      getField r "lastUpdate" = some (Json.str now) ∧
      ∀ k, k ≠ "total" → k ≠ "lastUpdate" → getField r k = lookupField fs k :=
  onJobClose_fields (some (Json.arr xs)) stored now fs hobj

/-- Witness for C3 at a two-element artifact over a state holding success 3:
total becomes 2, the concurrently accumulated success 3 survives. -/
theorem jobClose_sets_total_witness :
    getField ((readCounter (onJobClose (some (Json.arr [Json.null, Json.null]))
      (some (Json.obj [("total", Json.num 0), ("success", Json.num 3),
        ("lastRun", Json.str "t0"), ("lastUpdate", Json.str "t1")])) "t2")).1)
      "total" = some (Json.num 2) ∧
    getField ((readCounter (onJobClose (some (Json.arr [Json.null, Json.null]))
      (some (Json.obj [("total", Json.num 0), ("success", Json.num 3),
        ("lastRun", Json.str "t0"), ("lastUpdate", Json.str "t1")])) "t2")).1)
      "success" = some (Json.num 3) := by
  obtain ⟨r, hr, ht, _, hf⟩ := jobClose_sets_total [Json.null, Json.null]
    (some (Json.obj [("total", Json.num 0), ("success", Json.num 3),
      ("lastRun", Json.str "t0"), ("lastUpdate", Json.str "t1")])) "t2"
    [("total", Json.num 0), ("success", Json.num 3),
      ("lastRun", Json.str "t0"), ("lastUpdate", Json.str "t1")] rfl
  rw [hr]
  constructor
  · show getField r "total" = some (Json.num 2)
    rw [ht]
    rfl
  · show getField r "success" = some (Json.num 3)
    rw [hf "success" (by decide) (by decide)]
    rfl

/-- C1 counterexample: the payload with success set to the number 1 contains
none of the four documented indicators — its success field is not the boolean
true — yet the handler accepts it with 200, so the documented
if-and-only-if acceptance rule fails in the only-if direction. -/
theorem callback_tolerant_cex :
    specIndicatorPresent (Json.obj [("success", Json.num 1)]) = false ∧
    (onCallback (Json.obj [("success", Json.num 1)])
      (some (resetCounter "t0")) "t1").1.status = 200 :=
  ⟨rfl, rfl⟩

/-- C1 amended: the handler accepts a payload exactly when its body has a
truthy success field, or status equal to ok, or flag equal to success, or
result equal to success — the four documented shapes are the instances of
this rule with success equal to boolean true — and on a payload satisfying
none of these it responds 400 with ok false and a message, leaving the
persisted state completely unchanged. -/
theorem callback_accepts_iff (reqBody : Json) (stored : Option Json)
    (now : String) :
    ((onCallback reqBody stored now).1.status = 200 ↔
      (truthyOpt (getField (normBody reqBody) "success") = true ∨
       strictEqStr (getField (normBody reqBody) "status") "ok" = true ∨
       strictEqStr (getField (normBody reqBody) "flag") "success" = true ∨
       strictEqStr (getField (normBody reqBody) "result") "success" = true)) ∧
    (callbackAccepts (normBody reqBody) = false →
      onCallback reqBody stored now =
        (⟨400, Json.obj [("ok", Json.bool false),
                         ("message", Json.str "Expected success flag in payload")]⟩,
         stored)) := by
  have hdis : callbackAccepts (normBody reqBody) = true ↔
      (truthyOpt (getField (normBody reqBody) "success") = true ∨
       strictEqStr (getField (normBody reqBody) "status") "ok" = true ∨
       strictEqStr (getField (normBody reqBody) "flag") "success" = true ∨
       strictEqStr (getField (normBody reqBody) "result") "success" = true) := by
    simp [callbackAccepts, Bool.or_eq_true, or_assoc]
  cases hb : callbackAccepts (normBody reqBody) with
  | true =>
    refine ⟨?_, fun h => by simp [hb] at h⟩
    rw [onCallback_accept _ _ _ hb]
    exact iff_of_true rfl (hdis.mp hb)
  | false =>
    refine ⟨?_, fun _ => onCallback_reject _ _ _ hb⟩
    rw [onCallback_reject _ _ _ hb]
    refine iff_of_false (by simp) fun h => ?_
    rw [hdis.mpr h] at hb
    exact Bool.noConfusion hb

/-- Witness for C1 amended: the undocumented payload foo bar is rejected with
400 and the stored state survives unchanged. -/
theorem callback_accepts_iff_witness :
    onCallback (Json.obj [("foo", Json.str "bar")])
      (some (resetCounter "t0")) "t1" =
      (⟨400, Json.obj [("ok", Json.bool false),
                       ("message", Json.str "Expected success flag in payload")]⟩,
       some (resetCounter "t0")) :=
  (callback_accepts_iff _ _ _).2 rfl

/-- C2: every accepted callback persists the read counter with its success
field incremented by exactly one — whatever else the payload carries — and
lastUpdate set to now, and responds 200 with ok true and that updated
counter. -/
theorem callback_increments_success (reqBody : Json) (stored : Option Json)
    (now : String) (n : Int)
    (hacc : callbackAccepts (normBody reqBody) = true)
    (hn : successOf stored = some (Json.num n)) :
    onCallback reqBody stored now =
      (⟨200, Json.obj [("ok", Json.bool true),
                       ("counter", cbUpdate (readCounter stored).1 now)]⟩,
       some (cbUpdate (readCounter stored).1 now)) ∧
    getField (cbUpdate (readCounter stored).1 now) "success" =
      some (Json.num (n + 1)) ∧
    getField (cbUpdate (readCounter stored).1 now) "lastUpdate" =
      some (Json.str now) := by
  refine ⟨onCallback_accept _ _ _ hacc, ?_, getField_cbUpdate_lastUpdate _ _⟩
  rw [getField_cbUpdate_success,
    show getField (readCounter stored).1 "success" = some (Json.num n) from hn,
    jsPlusOne_jsOrZero_num]

/-- Witness for C2: a payload carrying the numeric quantity 57 still
increments the default success 0 to exactly 1. -/
theorem callback_increments_success_witness :
    getField (cbUpdate (readCounter none).1 "t1") "success" =
      some (Json.num 1) ∧
    getField (cbUpdate (readCounter none).1 "t1") "lastUpdate" =
      some (Json.str "t1") := by
  have h := callback_increments_success
    (Json.obj [("success", Json.bool true), ("count", Json.num 57)])
    none "t1" 0 rfl rfl
  exact ⟨h.2.1, h.2.2⟩

/-- C10: a payload whose success field holds any truthy value — number,
string, object — is accepted with 200 and increments the persisted success
count; when the success field is falsy or absent, acceptance is decided
exactly by the three remaining string checks. -/
theorem truthy_success_accepted (body : Json) (stored : Option Json)
    (now : String) :
    (∀ v : Json, getField body "success" = some v → truthy v = true →
      (onCallback body stored now).1.status = 200 ∧
      successOf (onCallback body stored now).2 =
        some (jsPlusOne (jsOrZero (successOf stored)))) ∧
    (truthyOpt (getField body "success") = false →
      callbackAccepts (normBody body) =
        (strictEqStr (getField (normBody body) "status") "ok"
          || strictEqStr (getField (normBody body) "flag") "success"
          || strictEqStr (getField (normBody body) "result") "success")) := by
  constructor
  · intro v hv htv
    obtain ⟨fs, rfl⟩ := exists_obj_of_getField hv
    have hacc : callbackAccepts (normBody (Json.obj fs)) = true := by
      have hts : truthyOpt (getField (Json.obj fs) "success") = true := by
        rw [hv]; exact htv
      simp [normBody, truthy, callbackAccepts, hts]
    rw [onCallback_accept _ _ _ hacc]
    refine ⟨rfl, ?_⟩
    show getField (cbUpdate (readCounter stored).1 now) "success" =
      some (jsPlusOne (jsOrZero (successOf stored)))
    rw [getField_cbUpdate_success]
    rfl
  · intro hfal
    have hnorm : truthyOpt (getField (normBody body) "success") = false := by
      unfold normBody
      by_cases hb : truthy body
      · simpa [hb] using hfal
      · simp [hb, getField, truthyOpt, lookupField]
    simp [callbackAccepts, hnorm]

/-- Witness for C10: the payload with success set to the number 1 — truthy
but not boolean true — is accepted and increments the reset counter. -/
theorem truthy_success_accepted_witness :
    (onCallback (Json.obj [("success", Json.num 1)])
      (some (resetCounter "t0")) "t1").1.status = 200 ∧
    successOf (onCallback (Json.obj [("success", Json.num 1)])
      (some (resetCounter "t0")) "t1").2 =
      some (jsPlusOne (jsOrZero (successOf (some (resetCounter "t0"))))) :=
  (truthy_success_accepted _ _ _).1 (Json.num 1) rfl rfl

theorem successOf_applyOp (st : Option Json) (op : Op) (n : Int)
    (h : successOf st = some (Json.num n)) :
    ∃ m : Int, successOf (applyOp st op) = some (Json.num m) ∧ n ≤ m := by
  cases op with
  | callback b now =>
    cases hb : callbackAccepts (normBody b) with
    | false =>
      refine ⟨n, ?_, le_refl n⟩
      show successOf (onCallback b st now).2 = _
      rw [onCallback_reject _ _ _ hb]
      exact h
    | true =>
      refine ⟨n + 1, ?_, by omega⟩
      show successOf (onCallback b st now).2 = _
      rw [onCallback_accept _ _ _ hb]
      show getField (cbUpdate (readCounter st).1 now) "success" = _
      rw [getField_cbUpdate_success,
        show getField (readCounter st).1 "success" = some (Json.num n) from h,
        jsPlusOne_jsOrZero_num]
  | jobClose a now =>
    refine ⟨n, ?_, le_refl n⟩
    obtain ⟨fs, hfs⟩ := exists_obj_of_getField
      (show getField (readCounter st).1 "success" = some (Json.num n) from h)
    obtain ⟨r, hr, _, _, hf⟩ := onJobClose_fields a st now fs hfs
    show successOf (onJobClose a st now) = _
    rw [hr]
    show getField r "success" = _
    rw [hf "success" (by decide) (by decide)]
    have h2 := h
    rw [show successOf st = getField (readCounter st).1 "success" from rfl,
      hfs] at h2
    exact h2

theorem successOf_runOps : ∀ (ops : List Op) (st : Option Json) (n : Int),
    successOf st = some (Json.num n) →
    ∃ m : Int, successOf (runOps st ops) = some (Json.num m) ∧ n ≤ m
  | [], _, n, h => ⟨n, h, le_refl n⟩
  | op :: rest, st, n, h => by
    obtain ⟨m1, h1, hle1⟩ := successOf_applyOp st op n h
    obtain ⟨m2, h2, hle2⟩ := successOf_runOps rest (applyOp st op) m1 h1
    exact ⟨m2, h2, le_trans hle1 hle2⟩

/-- C8: over any sequence of callbacks and job close events with no new
trigger, the success counter never decreases; and three accepted callbacks
racing ahead of the job artifact are each answered 200 and leave the state at
total 0, success 3 — an accepted transient overshoot, not an error. -/
theorem success_monotone_within_run :
    (∀ (ops : List Op) (st : Option Json) (n : Int),
      successOf st = some (Json.num n) →
      ∃ m : Int, successOf (runOps st ops) = some (Json.num m) ∧ n ≤ m) ∧
    ((onCallback (Json.obj [("status", Json.str "ok")])
        (some (resetCounter "t0")) "t1").1.status = 200 ∧
     (onCallback (Json.obj [("status", Json.str "ok")])
        (onCallback (Json.obj [("status", Json.str "ok")])
          (some (resetCounter "t0")) "t1").2 "t2").1.status = 200 ∧
     (onCallback (Json.obj [("status", Json.str "ok")])
        (onCallback (Json.obj [("status", Json.str "ok")])
          (onCallback (Json.obj [("status", Json.str "ok")])
            (some (resetCounter "t0")) "t1").2 "t2").2 "t3").1.status = 200 ∧
     successOf (runOps (some (resetCounter "t0"))
        [Op.callback (Json.obj [("status", Json.str "ok")]) "t1",
         Op.callback (Json.obj [("status", Json.str "ok")]) "t2",
         Op.callback (Json.obj [("status", Json.str "ok")]) "t3"]) =
       some (Json.num 3) ∧
     getField (readCounter (runOps (some (resetCounter "t0"))
        [Op.callback (Json.obj [("status", Json.str "ok")]) "t1",
         Op.callback (Json.obj [("status", Json.str "ok")]) "t2",
         Op.callback (Json.obj [("status", Json.str "ok")]) "t3"])).1 "total" =
       some (Json.num 0)) :=
  ⟨successOf_runOps, rfl, rfl, rfl, rfl, rfl⟩

/-- Witness for C8: one accepted callback on the reset state yields a success
value no smaller than the initial 0. -/
theorem success_monotone_within_run_witness :
    ∃ m : Int, successOf (runOps (some (resetCounter "t0"))
      [Op.callback (Json.obj [("flag", Json.str "success")]) "t1"]) =
        some (Json.num m) ∧ 0 ≤ m :=
  success_monotone_within_run.1
    [Op.callback (Json.obj [("flag", Json.str "success")]) "t1"]
    (some (resetCounter "t0")) 0 rfl

/-- C9 (code bug): the callback read-modify-write is not serialized — the
handler awaits between its read and its write with no mutual exclusion.  Two
concurrent accepted callbacks scheduled read, read, write, write from the
reset state both read success 0 and the final state holds success 1: one
update is lost, where the claim requires completed equal to 2.  The fully
serialized schedule of the same two handlers yields 2. -/
theorem callback_lost_update :
    successOf (runSched (fun i => toString i)
      ⟨some (resetCounter "t0"), [none, none]⟩
      [CbEv.readEv 0, CbEv.readEv 1, CbEv.writeEv 0, CbEv.writeEv 1]).store =
      some (Json.num 1) ∧
    successOf (runSched (fun i => toString i)
      ⟨some (resetCounter "t0"), [none, none]⟩
      [CbEv.readEv 0, CbEv.writeEv 0, CbEv.readEv 1, CbEv.writeEv 1]).store =
      some (Json.num 2) :=
  ⟨rfl, rfl⟩

end AICallingAgent
